import Mathlib

/-!
Shallow embedding of the shared-logging repository
(src/shared_logging/config.py and src/shared_logging/setup.py) and proofs
about the behaviour of its two logging configurators.
-/

namespace SharedLogging

/-- JSON values as produced by orjson. -/
inductive Json where
  | null : Json
  | bool (b : Bool) : Json
  | num (n : Int) : Json
  | str (s : String) : Json
  | arr (xs : List Json) : Json
  | obj (fields : List (String × Json)) : Json

/-- Escapes one character the way a JSON string literal requires. -/
def escapeChar (c : Char) : String :=
  if c = '"' then "\\\""
  else if c = '\\' then "\\\\"
  else if c = '\n' then "\\n"
  else if c = '\t' then "\\t"
  else if c = '\r' then "\\r"
  else String.singleton c

/-- Escapes a whole string for inclusion in a JSON string literal. -/
def escapeString (s : String) : String :=
  String.join (s.data.map escapeChar)

/-- Models Python str.upper on the ASCII fragment the level names live in. -/
def asciiUpper (s : String) : String :=
  ⟨s.data.map fun c => if c.isLower then Char.ofNat (c.toNat - 32) else c⟩

/-- Models Python str.lower on the ASCII fragment the environment names live
in. -/
def asciiLower (s : String) : String :=
  ⟨s.data.map fun c => if c.isUpper then Char.ofNat (c.toNat + 32) else c⟩

mutual

/-- Renders a JSON value to its textual form, keys in insertion order, as
orjson.dumps does. -/
def Json.dumps : Json → String
  | .null => "null"
  | .bool b => cond b "true" "false"
  | .num n => toString n
  | .str s => "\"" ++ escapeString s ++ "\""
  | .arr xs => "[" ++ dumpsList xs ++ "]"
  | .obj fs => "\x7b" ++ dumpsFields fs ++ "\x7d"
termination_by j => sizeOf j
decreasing_by
  all_goals simp only [Json.arr.sizeOf_spec, Json.obj.sizeOf_spec] <;> omega

/-- Renders the comma-separated elements of a JSON array. -/
def dumpsList : List Json → String
  | [] => ""
  | [x] => x.dumps
  | x :: y :: xs => x.dumps ++ "," ++ dumpsList (y :: xs)
termination_by l => sizeOf l
decreasing_by
  all_goals simp only [List.cons.sizeOf_spec] <;> omega

/-- Renders the comma-separated key-value pairs of a JSON object. -/
def dumpsFields : List (String × Json) → String
  | [] => ""
  | [(k, v)] => "\"" ++ escapeString k ++ "\":" ++ v.dumps
  | (k, v) :: q :: ps =>
      "\"" ++ escapeString k ++ "\":" ++ v.dumps ++ "," ++ dumpsFields (q :: ps)
termination_by l => sizeOf l
decreasing_by
  all_goals simp only [List.cons.sizeOf_spec, Prod.mk.sizeOf_spec] <;> omega

end

/-- A Python value handed to the logger as a context value: either something
orjson can serialize, or an object it cannot (carried with its str()
representation). -/
inductive PyVal where
  | json (j : Json) : PyVal
  | nonSerializable (s : String) : PyVal

/-- The JSON value of a context value, when orjson can serialize it. -/
def PyVal.toJson? : PyVal → Option Json
  | .json j => some j
  | .nonSerializable _ => none

/-- Total variant of toJson?; meaningful only on serializable values. -/
def PyVal.toJson! (v : PyVal) : Json := v.toJson?.getD .null

/-- First-occurrence lookup in an insertion-ordered dict, as Python dict
indexing behaves on the association lists we use to model dicts. -/
def lookupKey : List (String × α) → String → Option α
  | [], _ => none
  | p :: d, k => if p.1 = k then some p.2 else lookupKey d k

/-- Python dict assignment d[k] = v: replaces the first binding of k in
place, or appends a new binding at the end. -/
def updateKey : List (String × α) → String → α → List (String × α)
  | [], k, v => [(k, v)]
  | p :: d, k, v => if p.1 = k then (k, v) :: d else p :: updateKey d k v

/-- Python dict.update(e) and the double-star merge: bindings of e are written
into d one after the other, later occurrences winning. -/
def dictMerge (d e : List (String × α)) : List (String × α) :=
  e.foldl (fun acc kv => updateKey acc kv.1 kv.2) d

/-- Last-occurrence lookup: the value a Python dict built from this binding
list would hold at k. -/
def lastLookup (d : List (String × α)) (k : String) : Option α :=
  lookupKey d.reverse k

/-- A dict is serializable when orjson accepts every value in it. -/
def serializableDict (d : List (String × PyVal)) : Bool :=
  d.all fun p => p.2.toJson?.isSome

/-- The JSON fields of a serializable dict. -/
def jsonFields (d : List (String × PyVal)) : List (String × Json) :=
  d.map fun p => (p.1, p.2.toJson!)

/-- Models orjson.dumps on a Python dict: raises TypeError when some value is
not JSON-serializable (orjson has no default= fallback in this codebase),
otherwise renders the object with keys in insertion order. -/
def orjson_dumps (d : List (String × PyVal)) : Except String String :=
  if serializableDict d then .ok (Json.obj (jsonFields d)).dumps
  else .error "TypeError: Type is not JSON serializable"

/-- Loguru severity levels, ordered by their numeric value. -/
inductive Level where
  | trace | debug | info | success | warning | error | critical
deriving DecidableEq

/-- The numeric severity loguru assigns to each level. -/
def Level.no : Level → Nat
  | .trace => 5
  | .debug => 10
  | .info => 20
  | .success => 25
  | .warning => 30
  | .error => 40
  | .critical => 50

/-- The uppercase name loguru uses for each level. -/
def Level.name : Level → String
  | .trace => "TRACE"
  | .debug => "DEBUG"
  | .info => "INFO"
  | .success => "SUCCESS"
  | .warning => "WARNING"
  | .error => "ERROR"
  | .critical => "CRITICAL"

/-- Models loguru level-name lookup: a registered name maps to its severity
number; Logger.add raises ValueError on any other name. -/
def levelNo? (s : String) : Option Nat :=
  if s = "TRACE" then some 5
  else if s = "DEBUG" then some 10
  else if s = "INFO" then some 20
  else if s = "SUCCESS" then some 25
  else if s = "WARNING" then some 30
  else if s = "ERROR" then some 40
  else if s = "CRITICAL" then some 50
  else none

/-- The configuration of one loguru sink as installed by Logger.add: the
keyword arguments the two configurators pass (or leave at loguru defaults). -/
structure Handler where
  levelNo : Nat
  serialize : Bool
  enqueue : Bool
  backtrace : Bool
  diagnose : Bool
deriving DecidableEq

/-- The process-wide loguru state the configurators mutate: the installed
handlers and the core extra mapping set by logger.configure. -/
structure LoguruCore where
  handlers : List Handler
  extra : List (String × PyVal)

/-- A fresh core with no handlers and no extra, as after logger.remove(). -/
def emptyCore : LoguruCore := { handlers := [], extra := [] }

/-- One loguru log record, after static and bound context have been merged
into its extra mapping. -/
structure Record where
  time : String
  level : Level
  message : String
  extra : List (String × PyVal)
  exception : Option String

/-- The record a log call on the global logger builds: loguru merges the core
extra set by logger.configure with the context bound at the call site, the
bound keys winning on collision. -/
def mkRecord (st : LoguruCore) (bound : List (String × PyVal)) (lvl : Level)
    (msg : String) (time : String) : Record :=
  { time := time, level := lvl, message := msg,
    extra := dictMerge st.extra bound, exception := none }

/-- Loguru Logger._log's first check: the call proceeds past the early
return iff the record level reaches core.min_level, the least level among
the installed handlers (with no handlers nothing proceeds) — equivalently,
iff some handler's level is at or below the record's. Below that, _log
returns before building the record or running any patcher. -/
def passesMinLevel (st : LoguruCore) (lvl : Level) : Bool :=
  st.handlers.any fun h => h.levelNo ≤ lvl.no

/-- The loguru record attribute names a format template may reference. -/
def recordFieldNames : List String :=
  ["elapsed", "exception", "extra", "file", "function", "level", "line",
   "message", "module", "name", "process", "thread", "time"]

/-- The name of the first replacement field str.format_map parses in a
template: the characters after the first opening brace, up to the first
format-spec colon, closing brace, conversion mark, index or attribute mark;
none when the template holds no opening brace. (The double-brace escape is
not modelled: no template this program builds starts with one.) -/
def firstReplacementField (template : String) : Option String :=
  match template.data.dropWhile (fun c => !(c == '\x7b')) with
  | [] => none
  | _ :: rest =>
    some ⟨rest.takeWhile fun c =>
      !(c == ':' || c == '\x7d' || c == '!' || c == '[' || c == '.')⟩

namespace Setup

/-- Embeds the dict literal built by the patcher lambda of
src/shared_logging/setup.py (configure_logger): core fields first, then the
record extra spread over them, later keys winning. -/
def innerDict (r : Record) : List (String × PyVal) :=
  dictMerge
    [("timestamp", PyVal.json (.str r.time)),
     ("level", PyVal.json (.str r.level.name)),
     ("message", PyVal.json (.str r.message))]
    r.extra

/-- Embeds the patcher lambda of setup.configure_logger: rewrites the record
message to the orjson dump of the flat payload; the TypeError orjson raises
on a non-serializable extra value passes through. -/
def patchRecord (r : Record) : Except String Record :=
  (orjson_dumps (innerDict r)).map fun s => { r with message := s }

/-- Models loguru _serialize_record, the serialize=True wrapper: the written
line is an outer JSON object with the two keys text and record; text holds
the formatted output (format "\x7bmessage\x7d" plus the newline terminator)
and record the serialized record, its message field carrying the patched
record message. Of loguru's record fields only the ones this embedding
models appear (exception — collapsed to its text, no claim logs one —,
extra, level without its icon, message); the omitted positional fields
(elapsed, file, function, line, module, name, process, thread, and the time
breakdown) carry no claim-relevant data. Their real relative order is
kept. -/
def envelope (r : Record) : Json :=
  .obj [("text", .str (r.message ++ "\n")),
        ("record", .obj
          [("exception", match r.exception with | some e => .str e | none => .null),
           ("extra", .obj (jsonFields r.extra)),
           ("level", .obj [("name", .str r.level.name), ("no", .num r.level.no)]),
           ("message", .str r.message)])]

/-- The record a successful pass of the setup patcher produces: the original
record with its message replaced by the orjson dump of the flat payload. -/
def patchedRecord (st : LoguruCore) (bound : List (String × PyVal)) (lvl : Level)
    (msg : String) (time : String) : Record :=
  let r := mkRecord st bound lvl msg time
  { r with message := (Json.obj (jsonFields (innerDict r))).dumps }

/-- Models Logger._log on the state installed by setup.configure_logger:
return silently when the record level is below core.min_level (no record is
built, no patcher runs); otherwise build the record, apply the core patcher
on the calling thread (its errors propagate to the caller), then every
handler whose level the record reaches serializes the record and writes one
line. Returns the JSON value of each line written to stdout. -/
def logValues (st : LoguruCore) (bound : List (String × PyVal)) (lvl : Level)
    (msg : String) (time : String) : Except String (List Json) :=
  if passesMinLevel st lvl then do
    let r := mkRecord st bound lvl msg time
    let p ← patchRecord r
    pure (st.handlers.filterMap fun h =>
      if h.levelNo ≤ lvl.no then some (envelope p) else none)
  else pure []

/-- The lines a log call writes, as text. -/
def logRecord (st : LoguruCore) (bound : List (String × PyVal)) (lvl : Level)
    (msg : String) (time : String) : Except String (List String) :=
  (logValues st bound lvl msg time).map (List.map Json.dumps)

/-- The confirmation message setup.configure_logger logs after installing the
sink. -/
def confMessage (service : String) : String :=
  "Asynchronous, structured JSON logger configured for \x27" ++ service ++ "\x27."

/-- The loguru state after setup.configure_logger: one handler from the
single logger.add call, with the extra set by logger.configure. -/
def installedState (service environment : String) (n : Nat) : LoguruCore :=
  { handlers := [{ levelNo := n, serialize := true, enqueue := true,
                   backtrace := asciiLower environment == "development",
                   diagnose := asciiLower environment == "development" }],
    extra := [("service", PyVal.json (.str service)),
              ("environment", PyVal.json (.str environment))] }

/-- Embeds configure_logger of src/shared_logging/setup.py: logger.remove(),
read LOG_LEVEL (default INFO, upper-cased), logger.add with serialize=True,
enqueue=True and backtrace/diagnose set by the environment, logger.configure
with the static extra and the patcher, then one INFO confirmation record.
Logger.add raises ValueError on an unregistered level name. -/
def configure_logger (service environment : String) (log_level_env : Option String)
    (st : LoguruCore) (time : String) : Except String (LoguruCore × List Json) := do
  let _st1 : LoguruCore := { st with handlers := [] }
  let log_level := asciiUpper (log_level_env.getD "INFO")
  match levelNo? log_level with
  | none => .error ("ValueError: Level \x27" ++ log_level ++ "\x27 does not exist")
  | some n =>
    let st3 := installedState service environment n
    let conf ← logValues st3 [] .info (confMessage service) time
    pure (st3, conf)

end Setup

namespace Config

/-- Embeds serialize from src/shared_logging/config.py (configure_logger):
the subset dict of core fields plus the closed-over service and environment,
updated with the record extra when it is non-empty, then the stringified
exception when present. -/
def subsetDict (service environment : String) (r : Record) : List (String × PyVal) :=
  let subset : List (String × PyVal) :=
    [("timestamp", PyVal.json (.str r.time)),
     ("level", PyVal.json (.str r.level.name)),
     ("message", PyVal.json (.str r.message)),
     ("service", PyVal.json (.str service)),
     ("environment", PyVal.json (.str environment))]
  let subset := if r.extra.isEmpty then subset else dictMerge subset r.extra
  match r.exception with
  | some e => updateKey subset "exception" (PyVal.json (.str e))
  | none => subset

/-- Embeds serialize of config.configure_logger: orjson.dumps of the subset
dict, decoded to text. -/
def serialize (service environment : String) (r : Record) : Except String String :=
  orjson_dumps (subsetDict service environment r)

/-- The handler config.configure_logger installs: level hard-coded to INFO,
serialize=False, and loguru defaults for the arguments it does not pass
(enqueue=False, backtrace=True, diagnose=True). -/
def handler : Handler :=
  { levelNo := 20, serialize := false, enqueue := false,
    backtrace := true, diagnose := true }

/-- Models a log call through the sink installed by config.configure_logger
(core patcher unset, as config.py never sets one): past the min-level early
return, each handler at or below the record level calls the dynamic
formatter, and loguru then uses its return — serialize plus a newline — as a
format template, format_map-ing it against the record. That template is
JSON, so its first replacement field name starts with a quote character and
names no record attribute: format_map raises KeyError inside Handler.emit,
the handler's default catch=True swallows it, and the record is dropped. A
serialization error inside the formatter is likewise swallowed. A field-free
template would be written unchanged; substitution of a valid record field is
not modelled — no template this program builds contains one, the first field
always being the quoted timestamp key. Returns the lines written to
stdout. -/
def log (service environment : String) (st : LoguruCore)
    (bound : List (String × PyVal)) (lvl : Level) (msg : String)
    (time : String) : List String :=
  if passesMinLevel st lvl then
    let r := mkRecord st bound lvl msg time
    st.handlers.filterMap fun h =>
      if h.levelNo ≤ lvl.no then
        match serialize service environment r with
        | .ok s =>
          match firstReplacementField (s ++ "\n") with
          | none => some (s ++ "\n")
          | some name =>
            if recordFieldNames.contains name then some (s ++ "\n") else none
        | .error _ => none
      else none
  else []

/-- Embeds configure_logger of src/shared_logging/config.py: logger.remove(),
one logger.add with level hard-coded to "INFO" and a custom formatter (no
call reads LOG_LEVEL — the parameter here stands for the process environment
variable and the body ignores it, as the source does), then one INFO
confirmation record. The core extra is left as it was. -/
def configure_logger (service environment : String) (log_level_env : Option String)
    (st : LoguruCore) (time : String) : LoguruCore × List String :=
  let st2 : LoguruCore := { st with handlers := [handler] }
  let conf := log service environment st2 [] .info
    ("Structured JSON logger configured for \x27" ++ service ++ "\x27.") time
  (st2, conf)

end Config

/-- Models the single background worker of an enqueue=True loguru sink: it
repeatedly takes the oldest queued line and appends it to the stream, so the
stream receives the lines in enqueue order. -/
def drainQueue : List String → List String
  | [] => []
  | l :: q => l :: drainQueue q

/-- The top-level keys of a JSON object, in order; non-objects have none. -/
def topKeys : Json → List String
  | .obj fs => fs.map Prod.fst
  | _ => []

/-! Lemmas about the Python dict operations. -/

theorem lookupKey_updateKey (d : List (String × α)) (k : String) (v : α) (q : String) :
    lookupKey (updateKey d k v) q = if q = k then some v else lookupKey d q := by
  induction d with
  | nil => simp [updateKey, lookupKey, eq_comm]
  | cons p d ih =>
    by_cases hp : p.1 = k <;> by_cases hq : q = k <;> by_cases hpq : p.1 = q <;>
      simp_all [updateKey, lookupKey, eq_comm]

theorem dictMerge_nil (d : List (String × α)) : dictMerge d [] = d := rfl

theorem dictMerge_cons (d : List (String × α)) (p : String × α) (e : List (String × α)) :
    dictMerge d (p :: e) = dictMerge (updateKey d p.1 p.2) e := rfl

theorem lookupKey_append (a b : List (String × α)) (k : String) :
    lookupKey (a ++ b) k =
      match lookupKey a k with
      | some v => some v
      | none => lookupKey b k := by
  induction a with
  | nil => simp [lookupKey]
  | cons p a ih =>
    by_cases hp : p.1 = k <;> simp [lookupKey, hp, ih]

theorem lastLookup_nil (k : String) : lastLookup ([] : List (String × α)) k = none := rfl

theorem lastLookup_cons (p : String × α) (e : List (String × α)) (k : String) :
    lastLookup (p :: e) k =
      match lastLookup e k with
      | some v => some v
      | none => if p.1 = k then some p.2 else none := by
  unfold lastLookup
  rw [List.reverse_cons, lookupKey_append]
  cases lookupKey e.reverse k <;> simp [lookupKey]

theorem lookupKey_dictMerge (e d : List (String × α)) (k : String) :
    lookupKey (dictMerge d e) k =
      match lastLookup e k with
      | some v => some v
      | none => lookupKey d k := by
  induction e generalizing d with
  | nil => simp [dictMerge_nil, lastLookup_nil]
  | cons p e ih =>
    rw [dictMerge_cons, ih, lastLookup_cons, lookupKey_updateKey]
    cases lastLookup e k with
    | some v => simp
    | none =>
      by_cases hk : k = p.1
      · simp [hk]
      · simp [hk, show ¬ p.1 = k from fun h => hk h.symm]

theorem mem_updateKey (d : List (String × α)) (k : String) (v : α) (p : String × α)
    (hp : p ∈ updateKey d k v) : p ∈ d ∨ p = (k, v) := by
  induction d with
  | nil => simpa [updateKey] using hp
  | cons q d ih =>
    by_cases hq : q.1 = k
    · simp only [updateKey, hq, if_pos] at hp
      rcases List.mem_cons.mp hp with h | h
      · exact Or.inr h
      · exact Or.inl (List.mem_cons_of_mem _ h)
    · simp only [updateKey, hq, if_neg, not_false_iff] at hp
      rcases List.mem_cons.mp hp with h | h
      · exact Or.inl (h ▸ List.mem_cons_self _ _)
      · rcases ih h with h2 | h2
        · exact Or.inl (List.mem_cons_of_mem _ h2)
        · exact Or.inr h2

theorem serializableDict_iff (d : List (String × PyVal)) :
    serializableDict d = true ↔ ∀ p ∈ d, (PyVal.toJson? p.2).isSome = true := by
  simp [serializableDict, List.all_eq_true]

theorem serializableDict_dictMerge (d e : List (String × PyVal))
    (hd : serializableDict d = true) (he : serializableDict e = true) :
    serializableDict (dictMerge d e) = true := by
  rw [serializableDict_iff] at hd he ⊢
  induction e generalizing d with
  | nil => simpa [dictMerge_nil] using hd
  | cons p e ih =>
    rw [dictMerge_cons]
    refine ih _ ?_ (fun q hq => he q (List.mem_cons_of_mem _ hq))
    intro q hq
    rcases mem_updateKey _ _ _ _ hq with h | h
    · exact hd q h
    · rw [h]; exact he p (List.mem_cons_self _ _)

theorem lookupKey_jsonFields (d : List (String × PyVal)) (k : String) :
    lookupKey (jsonFields d) k = (lookupKey d k).map PyVal.toJson! := by
  induction d with
  | nil => simp [jsonFields, lookupKey]
  | cons p d ih =>
    by_cases hp : p.1 = k <;> simp [jsonFields, lookupKey, hp] at ih ⊢
    exact ih

theorem lookupKey_isSome_of_mem (d : List (String × α)) (k : String) (v : α)
    (h : (k, v) ∈ d) : (lookupKey d k).isSome = true := by
  induction d with
  | nil => simp at h
  | cons p d ih =>
    rcases List.mem_cons.mp h with h2 | h2
    · simp [lookupKey, ← h2]
    · by_cases hp : p.1 = k <;> simp [lookupKey, hp, ih h2]

theorem lastLookup_isSome_of_mem (e : List (String × α)) (k : String) (v : α)
    (h : (k, v) ∈ e) : (lastLookup e k).isSome = true :=
  lookupKey_isSome_of_mem _ _ v (List.mem_reverse.mpr h)

theorem lookupKey_dictMerge_isSome_left (d e : List (String × α)) (k : String)
    (h : (lookupKey d k).isSome = true) :
    (lookupKey (dictMerge d e) k).isSome = true := by
  rw [lookupKey_dictMerge]
  cases hl : lastLookup e k <;> simp [h]

theorem lookupKey_dictMerge_isSome_right (d e : List (String × α)) (k : String) (v : α)
    (h : (k, v) ∈ e) : (lookupKey (dictMerge d e) k).isSome = true := by
  rw [lookupKey_dictMerge]
  rcases Option.isSome_iff_exists.mp (lastLookup_isSome_of_mem e k v h) with ⟨w, hw⟩
  simp [hw]

theorem serializableDict_updateKey (d : List (String × PyVal)) (k : String) (v : PyVal)
    (hd : serializableDict d = true) (hv : (PyVal.toJson? v).isSome = true) :
    serializableDict (updateKey d k v) = true := by
  rw [serializableDict_iff] at hd ⊢
  intro q hq
  rcases mem_updateKey _ _ _ _ hq with h | h
  · exact hd q h
  · rw [h]; exact hv

/-! Lemmas evaluating the two logging pipelines. -/

theorem Setup.logValues_ok (service environment : String) (n : Nat)
    (bound : List (String × PyVal)) (lvl : Level) (msg time : String)
    (hb : serializableDict bound = true) :
    Setup.logValues (Setup.installedState service environment n) bound lvl msg time =
      .ok (if n ≤ lvl.no then
        [Setup.envelope
          (Setup.patchedRecord (Setup.installedState service environment n) bound lvl msg time)]
      else []) := by
  have hser : serializableDict (Setup.innerDict
      (mkRecord (Setup.installedState service environment n) bound lvl msg time)) = true := by
    refine serializableDict_dictMerge _ _ rfl ?_
    exact serializableDict_dictMerge _ _ rfl hb
  simp only [Setup.installedState] at hser
  by_cases hn : n ≤ lvl.no <;>
    simp [Setup.logValues, passesMinLevel, Setup.patchRecord, Setup.patchedRecord,
      orjson_dumps, hser, Except.map, Functor.map, Bind.bind, Except.bind, pure,
      Except.pure, Setup.installedState, hn, List.filterMap_cons]

theorem Setup.logValues_below (service environment : String) (n : Nat)
    (bound : List (String × PyVal)) (lvl : Level) (msg time : String)
    (h : ¬ n ≤ lvl.no) :
    Setup.logValues (Setup.installedState service environment n) bound lvl msg time
      = .ok [] := by
  simp [Setup.logValues, passesMinLevel, Setup.installedState, h, pure, Except.pure]

theorem Setup.configure_eq (service environment : String) (v : Option String)
    (st : LoguruCore) (t : String) (n : Nat)
    (h : levelNo? (asciiUpper (v.getD "INFO")) = some n) :
    Setup.configure_logger service environment v st t =
      .ok (Setup.installedState service environment n,
        if n ≤ 20 then
          [Setup.envelope (Setup.patchedRecord (Setup.installedState service environment n)
            [] .info (Setup.confMessage service) t)]
        else []) := by
  have hlog := Setup.logValues_ok service environment n [] .info (Setup.confMessage service) t rfl
  simp [Setup.configure_logger, h, hlog, Level.no]

theorem Setup.configure_err (service environment : String) (v : Option String)
    (st : LoguruCore) (t : String)
    (h : levelNo? (asciiUpper (v.getD "INFO")) = none) :
    (Setup.configure_logger service environment v st t).isOk = false := by
  simp [Setup.configure_logger, h, Except.isOk, Except.toBool]

theorem updateKey_head_key (d : List (String × α)) (k0 : String) (v0 : α)
    (k : String) (v : α) :
    ∃ w rest, updateKey ((k0, v0) :: d) k v = (k0, w) :: rest := by
  by_cases h : k0 = k
  · subst h
    exact ⟨v, d, by simp [updateKey]⟩
  · exact ⟨v0, updateKey d k v, by simp [updateKey, h]⟩

theorem dictMerge_head_key (e : List (String × α)) (d : List (String × α))
    (k : String) (v : α) :
    ∃ w rest, dictMerge ((k, v) :: d) e = (k, w) :: rest := by
  induction e generalizing d v with
  | nil => exact ⟨v, d, rfl⟩
  | cons p e ih =>
    rw [dictMerge_cons]
    rcases updateKey_head_key d k v p.1 p.2 with ⟨w, rest, hw⟩
    rw [hw]
    exact ih rest w

theorem Config.subsetDict_head_key (service environment : String) (r : Record) :
    ∃ w rest, Config.subsetDict service environment r = ("timestamp", w) :: rest := by
  have h1 : ∃ w rest,
      (if r.extra.isEmpty then
        [("timestamp", PyVal.json (.str r.time)),
         ("level", PyVal.json (.str r.level.name)),
         ("message", PyVal.json (.str r.message)),
         ("service", PyVal.json (.str service)),
         ("environment", PyVal.json (.str environment))]
      else dictMerge
        [("timestamp", PyVal.json (.str r.time)),
         ("level", PyVal.json (.str r.level.name)),
         ("message", PyVal.json (.str r.message)),
         ("service", PyVal.json (.str service)),
         ("environment", PyVal.json (.str environment))] r.extra)
      = ("timestamp", w) :: rest := by
    by_cases hxe : r.extra.isEmpty
    · exact ⟨PyVal.json (.str r.time),
        [("level", PyVal.json (.str r.level.name)),
         ("message", PyVal.json (.str r.message)),
         ("service", PyVal.json (.str service)),
         ("environment", PyVal.json (.str environment))],
        by simp [hxe]⟩
    · simp only [hxe, Bool.false_eq_true, if_neg, not_false_iff]
      exact dictMerge_head_key r.extra _ "timestamp" _
  obtain ⟨w, rest, hw⟩ := h1
  simp only [Config.subsetDict]
  cases hx : r.exception with
  | none => exact ⟨w, rest, hw⟩
  | some exc =>
    rw [hw]
    refine ⟨w, updateKey rest "exception" (PyVal.json (.str exc)), ?_⟩
    simp [updateKey]

theorem firstField_timestamp (v : Json) (rest : List (String × Json)) :
    firstReplacementField (Json.dumps (.obj (("timestamp", v) :: rest)) ++ "\n")
      = some "\"timestamp\"" := by
  cases rest with
  | nil =>
    rw [show Json.dumps (.obj [("timestamp", v)])
        = "\x7b" ++ ("\"" ++ escapeString "timestamp" ++ "\":" ++ v.dumps) ++ "\x7d" from by
      simp [Json.dumps, dumpsFields]]
    rfl
  | cons q rest =>
    rw [show Json.dumps (.obj (("timestamp", v) :: q :: rest))
        = "\x7b" ++ ("\"" ++ escapeString "timestamp" ++ "\":" ++ v.dumps ++ ","
            ++ dumpsFields (q :: rest)) ++ "\x7d" from by
      simp [Json.dumps, dumpsFields]]
    rfl

theorem Config.log_nothing (service environment : String) (st : LoguruCore)
    (bound : List (String × PyVal)) (lvl : Level) (msg time : String) :
    Config.log service environment st bound lvl msg time = [] := by
  by_cases hp : passesMinLevel st lvl = true
  case neg => simp [Config.log, hp]
  case pos =>
    simp only [Config.log, hp, if_true]
    refine List.filterMap_eq_nil_iff.mpr ?_
    intro h hmem
    by_cases hl : h.levelNo ≤ lvl.no
    · simp only [hl, if_true]
      cases hs : Config.serialize service environment (mkRecord st bound lvl msg time) with
      | error e => rfl
      | ok s =>
        obtain ⟨w, rest, hw⟩ :=
          Config.subsetDict_head_key service environment (mkRecord st bound lvl msg time)
        have hss : s = Json.dumps (.obj (("timestamp", PyVal.toJson! w) :: jsonFields rest)) := by
          unfold Config.serialize orjson_dumps at hs
          by_cases hser : serializableDict (Config.subsetDict service environment
              (mkRecord st bound lvl msg time)) = true
          · simp only [hser, if_true] at hs
            have h2 := Except.ok.inj hs
            rw [hw] at h2
            simpa [jsonFields] using h2.symm
          · simp only [hser, if_false, Bool.not_eq_true] at hs
            simp [(Bool.not_eq_true _).mp hser] at hs
        rw [hss]
        simp [firstField_timestamp, recordFieldNames]
    · simp [hl]

theorem lookupKey_isSome_iff (d : List (String × α)) (k : String) :
    (lookupKey d k).isSome = true ↔ ∃ v, (k, v) ∈ d := by
  induction d with
  | nil => simp [lookupKey]
  | cons p d ih =>
    by_cases hp : p.1 = k
    · simp only [lookupKey, hp, if_pos]
      constructor
      · intro _; exact ⟨p.2, by rw [← hp]; exact List.mem_cons_self _ _⟩
      · intro _; rfl
    · simp only [lookupKey, hp, if_neg, not_false_iff, ih]
      constructor
      · rintro ⟨v, hv⟩; exact ⟨v, List.mem_cons_of_mem _ hv⟩
      · rintro ⟨v, hv⟩
        rcases List.mem_cons.mp hv with h | h
        · exact absurd (congrArg Prod.fst h.symm) hp
        · exact ⟨v, h⟩

theorem lookupKey_dictMerge_isSome_mid (d e : List (String × α)) (k : String)
    (h : (lookupKey e k).isSome = true) :
    (lookupKey (dictMerge d e) k).isSome = true := by
  rcases (lookupKey_isSome_iff e k).mp h with ⟨v, hv⟩
  exact lookupKey_dictMerge_isSome_right d e k v hv

theorem lookupKey_updateKey_isSome (d : List (String × α)) (k : String) (v : α)
    (q : String) (h : (lookupKey d q).isSome = true) :
    (lookupKey (updateKey d k v) q).isSome = true := by
  rw [lookupKey_updateKey]
  by_cases hq : q = k <;> simp [hq, h]

theorem Config.subsetDict_serializable (service environment : String) (r : Record)
    (hr : serializableDict r.extra = true) :
    serializableDict (Config.subsetDict service environment r) = true := by
  have h1 : serializableDict
      (if r.extra.isEmpty then
        [("timestamp", PyVal.json (.str r.time)),
         ("level", PyVal.json (.str r.level.name)),
         ("message", PyVal.json (.str r.message)),
         ("service", PyVal.json (.str service)),
         ("environment", PyVal.json (.str environment))]
      else dictMerge
        [("timestamp", PyVal.json (.str r.time)),
         ("level", PyVal.json (.str r.level.name)),
         ("message", PyVal.json (.str r.message)),
         ("service", PyVal.json (.str service)),
         ("environment", PyVal.json (.str environment))] r.extra) = true := by
    by_cases hxe : r.extra.isEmpty
    · simp [hxe]; rfl
    · simp only [hxe, if_neg, Bool.not_eq_true, not_false_iff]
      exact serializableDict_dictMerge _ _ rfl hr
  unfold Config.subsetDict
  cases hx : r.exception with
  | none => exact h1
  | some exc => exact serializableDict_updateKey _ _ _ h1 rfl

/-! The ten claims. -/

/-- C1 counterexample: after setup.configure_logger("billing", "production"),
a single warning record with bound context account_id=42 produces one line
whose top-level JSON object has the two keys text and record — the loguru
serialize=True envelope — not a flat object carrying timestamp, level,
message, service and environment at the top level, contrary to the claim
(the flat payload sits nested inside the record.message string). -/
theorem c1_counterexample :
    (Setup.configure_logger "billing" "production" none emptyCore "T0").map Prod.fst
      = .ok (Setup.installedState "billing" "production" 20)
  ∧ (Setup.logValues (Setup.installedState "billing" "production" 20)
      [("account_id", PyVal.json (.str "42"))] .warning "low balance"
      "2026-01-01T00:00:00+00:00").map (List.map topKeys)
      = .ok [["text", "record"]] :=
  ⟨rfl, rfl⟩

/-- C1 amended: every record the setup variant emits is a two-key loguru
envelope (text, record), not a flat object: the flat JSON payload with at
least the keys timestamp, level, message, service and environment plus all
bound context keys is nested as the string value of the envelope's
record.message field. The config variant's serializer builds the flat
payload with the same keys as its whole line, but its sink drops every
record (the callable-formatter template bug), so no line of either variant
is a flat top-level payload. -/
theorem c1_payload_keys (service environment : String) (bound : List (String × PyVal))
    (lvl : Level) (msg time : String) (hb : serializableDict bound = true) :
    (Setup.logValues (Setup.installedState service environment 20) bound lvl msg time =
      .ok (if 20 ≤ lvl.no then
        [Setup.envelope
          (Setup.patchedRecord (Setup.installedState service environment 20) bound lvl msg time)]
      else []))
  ∧ ((Setup.patchedRecord (Setup.installedState service environment 20)
        bound lvl msg time).message
      = (Json.obj (jsonFields (Setup.innerDict
          (mkRecord (Setup.installedState service environment 20) bound lvl msg time)))).dumps)
  ∧ (∀ stc : LoguruCore, Config.log service environment stc bound lvl msg time = [])
  ∧ (∀ k ∈ (["timestamp", "level", "message", "service", "environment"] : List String),
      (lookupKey (Setup.innerDict
        (mkRecord (Setup.installedState service environment 20) bound lvl msg time)) k).isSome
        = true)
  ∧ (∀ p ∈ bound,
      (lookupKey (Setup.innerDict
        (mkRecord (Setup.installedState service environment 20) bound lvl msg time)) p.1).isSome
        = true)
  ∧ (∀ r : Record, serializableDict r.extra = true →
      Config.serialize service environment r =
        .ok (Json.obj (jsonFields (Config.subsetDict service environment r))).dumps)
  ∧ (∀ r : Record,
      ∀ k ∈ (["timestamp", "level", "message", "service", "environment"] : List String),
        (lookupKey (Config.subsetDict service environment r) k).isSome = true)
  ∧ (∀ r : Record, ∀ p ∈ r.extra,
      (lookupKey (Config.subsetDict service environment r) p.1).isSome = true) := by
  refine ⟨Setup.logValues_ok _ _ _ _ _ _ _ hb, rfl,
    fun stc => Config.log_nothing service environment stc bound lvl msg time,
    ?_, ?_, ?_, ?_, ?_⟩
  · intro k hk
    simp only [List.mem_cons, List.not_mem_nil, or_false] at hk
    have hextra : (lookupKey (mkRecord
        (Setup.installedState service environment 20) bound lvl msg time).extra k).isSome = true →
        (lookupKey (Setup.innerDict
          (mkRecord (Setup.installedState service environment 20) bound lvl msg time)) k).isSome
          = true :=
      lookupKey_dictMerge_isSome_mid _ _ _
    rcases hk with h | h | h | h | h
    all_goals subst h
    · exact lookupKey_dictMerge_isSome_left _ _ _ rfl
    · exact lookupKey_dictMerge_isSome_left _ _ _ rfl
    · exact lookupKey_dictMerge_isSome_left _ _ _ rfl
    · exact hextra (lookupKey_dictMerge_isSome_left _ _ _ rfl)
    · exact hextra (lookupKey_dictMerge_isSome_left _ _ _ rfl)
  · intro p hp
    refine lookupKey_dictMerge_isSome_mid _ _ _ ?_
    exact lookupKey_dictMerge_isSome_right _ _ _ p.2 (by simpa using hp)
  · intro r hr
    simp [Config.serialize, orjson_dumps, Config.subsetDict_serializable _ _ _ hr]
  · intro r k hk
    simp only [List.mem_cons, List.not_mem_nil, or_false] at hk
    have hsub : ∀ q : String,
        (lookupKey
          [("timestamp", PyVal.json (.str r.time)),
           ("level", PyVal.json (.str r.level.name)),
           ("message", PyVal.json (.str r.message)),
           ("service", PyVal.json (.str service)),
           ("environment", PyVal.json (.str environment))] q).isSome = true →
        (lookupKey (Config.subsetDict service environment r) q).isSome = true := by
      intro q hq
      unfold Config.subsetDict
      have h1 : (lookupKey
          (if r.extra.isEmpty then
            [("timestamp", PyVal.json (.str r.time)),
             ("level", PyVal.json (.str r.level.name)),
             ("message", PyVal.json (.str r.message)),
             ("service", PyVal.json (.str service)),
             ("environment", PyVal.json (.str environment))]
          else dictMerge
            [("timestamp", PyVal.json (.str r.time)),
             ("level", PyVal.json (.str r.level.name)),
             ("message", PyVal.json (.str r.message)),
             ("service", PyVal.json (.str service)),
             ("environment", PyVal.json (.str environment))] r.extra) q).isSome = true := by
        by_cases hxe : r.extra.isEmpty
        · simpa [hxe] using hq
        · simp only [hxe, if_neg, Bool.not_eq_true, not_false_iff]
          exact lookupKey_dictMerge_isSome_left _ _ _ hq
      cases hx : r.exception with
      | none => exact h1
      | some exc => exact lookupKey_updateKey_isSome _ _ _ _ h1
    rcases hk with h | h | h | h | h
    all_goals subst h
    · exact hsub _ rfl
    · exact hsub _ rfl
    · exact hsub _ rfl
    · exact hsub _ rfl
    · exact hsub _ rfl
  · intro r p hp
    have hne : r.extra.isEmpty = false := by
      cases hxe : r.extra with
      | nil => rw [hxe] at hp; simp at hp
      | cons a l => simp [hxe]
    unfold Config.subsetDict
    have h1 : (lookupKey
        (if r.extra.isEmpty then
          [("timestamp", PyVal.json (.str r.time)),
           ("level", PyVal.json (.str r.level.name)),
           ("message", PyVal.json (.str r.message)),
           ("service", PyVal.json (.str service)),
           ("environment", PyVal.json (.str environment))]
        else dictMerge
          [("timestamp", PyVal.json (.str r.time)),
           ("level", PyVal.json (.str r.level.name)),
           ("message", PyVal.json (.str r.message)),
           ("service", PyVal.json (.str service)),
           ("environment", PyVal.json (.str environment))] r.extra) p.1).isSome = true := by
      rw [hne]
      simp only [if_neg, Bool.false_eq_true, not_false_iff]
      exact lookupKey_dictMerge_isSome_right _ _ _ p.2 (by simpa using hp)
    cases hx : r.exception with
    | none => exact h1
    | some exc => exact lookupKey_updateKey_isSome _ _ _ _ h1

/-- C1 witness: the amended theorem applies at a concrete configure and log
call with serializable bound context. -/
theorem c1_witness :
    serializableDict [("account_id", PyVal.json (.str "42"))] = true
  ∧ (Setup.logValues (Setup.installedState "billing" "production" 20)
      [("account_id", PyVal.json (.str "42"))] .warning "low balance" "T1" =
      .ok (if 20 ≤ Level.warning.no then
        [Setup.envelope (Setup.patchedRecord (Setup.installedState "billing" "production" 20)
          [("account_id", PyVal.json (.str "42"))] .warning "low balance" "T1")]
      else [])) :=
  ⟨by rfl, (c1_payload_keys "billing" "production"
      [("account_id", PyVal.json (.str "42"))] .warning "low balance" "T1" (by rfl)).1⟩

/-- C2 counterexample: a call-site context binding message="spoofed" on a
record whose own message is "real message" makes the setup pipeline emit its
envelope with a payload whose message field is "spoofed" — the context
overwrote the reserved core field, contrary to the claim. -/
theorem c2_counterexample :
    (Setup.logValues (Setup.installedState "billing" "production" 20)
      [("message", PyVal.json (.str "spoofed"))] .warning "real message" "T1")
      = .ok [Setup.envelope (Setup.patchedRecord (Setup.installedState "billing" "production" 20)
          [("message", PyVal.json (.str "spoofed"))] .warning "real message" "T1")]
  ∧ lookupKey (jsonFields (Setup.innerDict
      (mkRecord (Setup.installedState "billing" "production" 20)
        [("message", PyVal.json (.str "spoofed"))] .warning "real message" "T1"))) "message"
      = some (Json.str "spoofed")
  ∧ ¬ (Json.str "spoofed" = Json.str "real message") :=
  ⟨rfl, rfl, fun h => absurd (Json.str.inj h) (by decide)⟩

/-- C2 amended: the merge gives context precedence over every colliding key,
the reserved core fields timestamp, level and message included: the payload
each variant serializes (emitted inside the envelope by the setup sink;
built and then dropped by the config sink's formatter bug) carries the
context value whenever the merged record extra binds one of those keys, and
the record's own value only when it does not. -/
theorem c2_context_overrides_core (r : Record) (service environment : String) :
    lookupKey (Setup.innerDict r) "timestamp"
      = some ((lastLookup r.extra "timestamp").getD (PyVal.json (.str r.time)))
  ∧ lookupKey (Setup.innerDict r) "level"
      = some ((lastLookup r.extra "level").getD (PyVal.json (.str r.level.name)))
  ∧ lookupKey (Setup.innerDict r) "message"
      = some ((lastLookup r.extra "message").getD (PyVal.json (.str r.message)))
  ∧ lookupKey (Config.subsetDict service environment r) "timestamp"
      = some ((lastLookup r.extra "timestamp").getD (PyVal.json (.str r.time)))
  ∧ lookupKey (Config.subsetDict service environment r) "level"
      = some ((lastLookup r.extra "level").getD (PyVal.json (.str r.level.name)))
  ∧ lookupKey (Config.subsetDict service environment r) "message"
      = some ((lastLookup r.extra "message").getD (PyVal.json (.str r.message))) := by
  have hsetup : ∀ (k : String) (v : PyVal),
      lookupKey [("timestamp", PyVal.json (.str r.time)),
        ("level", PyVal.json (.str r.level.name)),
        ("message", PyVal.json (.str r.message))] k = some v →
      lookupKey (Setup.innerDict r) k = some ((lastLookup r.extra k).getD v) := by
    intro k v hv
    rw [Setup.innerDict, lookupKey_dictMerge]
    cases h : lastLookup r.extra k <;> simp [h, hv]
  have hifS : ∀ (k : String) (v : PyVal),
      lookupKey [("timestamp", PyVal.json (.str r.time)),
        ("level", PyVal.json (.str r.level.name)),
        ("message", PyVal.json (.str r.message)),
        ("service", PyVal.json (.str service)),
        ("environment", PyVal.json (.str environment))] k = some v →
      lookupKey (if r.extra.isEmpty then
          [("timestamp", PyVal.json (.str r.time)),
           ("level", PyVal.json (.str r.level.name)),
           ("message", PyVal.json (.str r.message)),
           ("service", PyVal.json (.str service)),
           ("environment", PyVal.json (.str environment))]
        else dictMerge
          [("timestamp", PyVal.json (.str r.time)),
           ("level", PyVal.json (.str r.level.name)),
           ("message", PyVal.json (.str r.message)),
           ("service", PyVal.json (.str service)),
           ("environment", PyVal.json (.str environment))] r.extra) k
        = some ((lastLookup r.extra k).getD v) := by
    intro k v hv
    by_cases hxe : r.extra.isEmpty
    · have hnil : r.extra = [] := List.isEmpty_iff.mp hxe
      simp [hxe, hv, hnil, lastLookup_nil]
    · simp only [hxe, Bool.false_eq_true, if_neg, not_false_iff]
      rw [lookupKey_dictMerge]
      cases h : lastLookup r.extra k <;> simp [h, hv]
  have hconfig : ∀ (k : String) (v : PyVal), ¬ k = "exception" →
      lookupKey [("timestamp", PyVal.json (.str r.time)),
        ("level", PyVal.json (.str r.level.name)),
        ("message", PyVal.json (.str r.message)),
        ("service", PyVal.json (.str service)),
        ("environment", PyVal.json (.str environment))] k = some v →
      lookupKey (Config.subsetDict service environment r) k
        = some ((lastLookup r.extra k).getD v) := by
    intro k v hk hv
    simp only [Config.subsetDict]
    cases hx : r.exception with
    | none => exact hifS k v hv
    | some exc =>
      rw [lookupKey_updateKey, if_neg hk]
      exact hifS k v hv
  exact ⟨hsetup _ _ rfl, hsetup _ _ rfl, hsetup _ _ rfl,
    hconfig _ _ (by decide) rfl, hconfig _ _ (by decide) rfl, hconfig _ _ (by decide) rfl⟩

/-- C3 counterexample: with LOG_LEVEL set to DEBUG, config.configure_logger
still installs its sink at level INFO — its level is hard-coded and the
environment variable is never read — so the minimum level is not taken from
LOG_LEVEL for every call to configure. -/
theorem c3_counterexample :
    ((Config.configure_logger "svc" "production" (some "DEBUG") emptyCore "T0").1.handlers.map
      Handler.levelNo) = [20]
  ∧ levelNo? "DEBUG" = some 10
  ∧ ¬ (20 : Nat) = 10 :=
  ⟨rfl, rfl, by decide⟩

/-- C3 amended: setup.configure_logger takes the sink minimum level from the
LOG_LEVEL value read at configuration time (upper-cased), INFO when it is
unset; config.configure_logger installs level INFO for every value of
LOG_LEVEL, ignoring the variable. -/
theorem c3_level_from_env (service environment : String) (st : LoguruCore) (t : String) :
    ((Setup.configure_logger service environment none st t).map Prod.fst
      = .ok (Setup.installedState service environment 20))
  ∧ (∀ (v : String) (n : Nat), levelNo? (asciiUpper v) = some n →
      (Setup.configure_logger service environment (some v) st t).map Prod.fst
        = .ok (Setup.installedState service environment n))
  ∧ (∀ v : Option String,
      (Config.configure_logger service environment v st t).1.handlers.map Handler.levelNo
        = [20]) := by
  refine ⟨?_, ?_, ?_⟩
  · rw [Setup.configure_eq service environment none st t 20 rfl]; rfl
  · intro v n h
    rw [Setup.configure_eq service environment (some v) st t n h]; rfl
  · intro v; rfl

/-- C3 witness: the amended theorem applies with the override debug, giving a
sink at level 10. -/
theorem c3_witness :
    levelNo? (asciiUpper "debug") = some 10
  ∧ (Setup.configure_logger "svc" "production" (some "debug") emptyCore "T0").map Prod.fst
      = .ok (Setup.installedState "svc" "production" 10) :=
  ⟨rfl, (c3_level_from_env "svc" "production" emptyCore "T0").2.1 "debug" 10 rfl⟩

/-- C4 counterexample: with LOG_LEVEL set to VERBOSE — not a registered level
name — setup.configure_logger fails (loguru Logger.add raises ValueError)
instead of completing with the INFO default, so configure does not complete
without raising for every value of the override. -/
theorem c4_counterexample :
    (Setup.configure_logger "svc" "production" (some "VERBOSE") emptyCore "T0").isOk = false
  ∧ levelNo? (asciiUpper "VERBOSE") = none :=
  ⟨rfl, rfl⟩

/-- C4 amended: setup.configure_logger completes only when LOG_LEVEL is unset
(then the minimum level is INFO) or names a registered level after
upper-casing; an invalid override string makes it fail with the loguru
ValueError rather than falling back to the INFO default. -/
theorem c4_invalid_level_raises (service environment : String) (st : LoguruCore) (t : String) :
    (∀ v : String, levelNo? (asciiUpper v) = none →
      (Setup.configure_logger service environment (some v) st t).isOk = false)
  ∧ ((Setup.configure_logger service environment none st t).map Prod.fst
      = .ok (Setup.installedState service environment 20)) := by
  constructor
  · intro v h
    exact Setup.configure_err service environment (some v) st t h
  · rw [Setup.configure_eq service environment none st t 20 rfl]; rfl

/-- C4 witness: the amended theorem applies at the invalid override bogus. -/
theorem c4_witness :
    levelNo? (asciiUpper "bogus") = none
  ∧ (Setup.configure_logger "svc" "production" (some "bogus") emptyCore "T0").isOk = false :=
  ⟨rfl, (c4_invalid_level_raises "svc" "production" emptyCore "T0").1 "bogus" rfl⟩

/-- C5 counterexample: at a level the sink processes, a context value orjson
cannot serialize makes the setup pipeline fail with the TypeError on the
calling thread; below the threshold the same call is a silent no-op (loguru
returns before the patcher runs); and the config pipeline drops the record;
in no case is the value coerced to its string representation with the
record still emitted, contrary to the claim. -/
theorem c5_counterexample :
    Setup.logValues (Setup.installedState "billing" "production" 20)
      [("payload", PyVal.nonSerializable "socket object at 0x7f")] .warning "msg" "T1"
      = .error "TypeError: Type is not JSON serializable"
  ∧ Setup.logValues (Setup.installedState "billing" "production" 20)
      [("payload", PyVal.nonSerializable "socket object at 0x7f")] .debug "msg" "T1"
      = .ok []
  ∧ Config.log "billing" "production" ⟨[Config.handler], []⟩
      [("payload", PyVal.nonSerializable "socket object at 0x7f")] .warning "msg" "T1"
      = [] :=
  ⟨rfl, rfl, rfl⟩

/-- C5 amended: there is no string coercion of unserializable context values:
when the record level reaches the sink threshold and the merged payload
holds a value orjson cannot serialize, the setup pipeline propagates the
TypeError to the caller (the patcher runs on the calling thread before any
handler catch); below the threshold loguru returns before the patcher, so
the call is a silent no-op; with only serializable values the setup pipeline
never fails; and the config pipeline never raises to the caller but also
never writes a record, its formatter bug dropping them all. -/
theorem c5_serialization_failure (service environment : String)
    (bound : List (String × PyVal)) (lvl : Level) (msg time : String) :
    (20 ≤ lvl.no →
      serializableDict (Setup.innerDict
        (mkRecord (Setup.installedState service environment 20) bound lvl msg time)) = false →
      Setup.logValues (Setup.installedState service environment 20) bound lvl msg time
        = .error "TypeError: Type is not JSON serializable")
  ∧ (¬ 20 ≤ lvl.no →
      Setup.logValues (Setup.installedState service environment 20) bound lvl msg time
        = .ok [])
  ∧ (serializableDict bound = true →
      (Setup.logValues (Setup.installedState service environment 20) bound lvl msg time).isOk
        = true)
  ∧ (∀ stc : LoguruCore, Config.log service environment stc bound lvl msg time = []) := by
  refine ⟨?_, Setup.logValues_below service environment 20 bound lvl msg time, ?_,
    fun stc => Config.log_nothing service environment stc bound lvl msg time⟩
  · intro hl h
    simp only [Setup.installedState] at h
    simp [Setup.logValues, passesMinLevel, Setup.patchRecord, orjson_dumps, h, hl,
      Except.map, Bind.bind, Except.bind, Setup.installedState]
  · intro hb
    rw [Setup.logValues_ok service environment 20 bound lvl msg time hb]
    rfl

/-- C5 witness: the amended theorem applies at a concrete unserializable
context value logged at warning level. -/
theorem c5_witness :
    20 ≤ Level.warning.no
  ∧ serializableDict (Setup.innerDict (mkRecord (Setup.installedState "billing" "production" 20)
      [("payload", PyVal.nonSerializable "socket object")] .warning "msg" "T1")) = false
  ∧ Setup.logValues (Setup.installedState "billing" "production" 20)
      [("payload", PyVal.nonSerializable "socket object")] .warning "msg" "T1"
      = .error "TypeError: Type is not JSON serializable" :=
  ⟨by decide, by rfl, (c5_serialization_failure "billing" "production"
      [("payload", PyVal.nonSerializable "socket object")] .warning "msg" "T1").1
      (by decide) (by rfl)⟩

/-- C6 counterexample: config.configure_logger("svc", "production") installs
its sink with backtrace and diagnose left at the loguru defaults — both true
— although the environment is production, so the diagnostics flags are not
false for every non-development environment. -/
theorem c6_counterexample :
    ((Config.configure_logger "svc" "production" none emptyCore "T0").1.handlers.map
      fun h => (h.backtrace, h.diagnose)) = [(true, true)]
  ∧ ¬ (asciiLower "production" = "development") :=
  ⟨rfl, by decide⟩

/-- C6 amended: setup.configure_logger sets both diagnostics flags of its
sink to true exactly when the environment equals development after
lower-casing; config.configure_logger passes neither flag, so its sink keeps
the loguru defaults — both true — for every environment. -/
theorem c6_diagnostics_flags (service environment : String) (st : LoguruCore)
    (t : String) (v : Option String) :
    ((Setup.configure_logger service environment none st t).map
        (fun p => p.1.handlers.map fun h => (h.backtrace, h.diagnose)))
      = .ok [((asciiLower environment == "development"),
              (asciiLower environment == "development"))]
  ∧ ((asciiLower environment == "development") = true ↔
      asciiLower environment = "development")
  ∧ ((Config.configure_logger service environment v st t).1.handlers.map
      fun h => (h.backtrace, h.diagnose)) = [(true, true)] := by
  refine ⟨?_, beq_iff_eq, rfl⟩
  · rw [Setup.configure_eq service environment none st t 20 rfl]; rfl

/-- C7 counterexample: config.configure_logger leaves exactly one installed
sink, yet a single subsequent warning record — which passes its INFO level —
produces zero output lines, not one: the sink's formatter bug drops every
record, contrary to the claim's one-line half. -/
theorem c7_counterexample :
    (Config.configure_logger "svc" "production" none emptyCore "T0").1.handlers.length = 1
  ∧ Config.handler.levelNo ≤ Level.warning.no
  ∧ Config.log "svc" "production"
      (Config.configure_logger "svc" "production" none emptyCore "T0").1
      [] .warning "hello" "T1" = [] :=
  ⟨rfl, by decide, Config.log_nothing "svc" "production" _ [] .warning "hello" "T1"⟩

/-- C7 amended: every call to either configure variant leaves exactly one
installed sink, whatever the prior state, and no log call ever produces
duplicate lines: through the setup sink a single log call writes exactly one
line when the record passes the level filter and none otherwise, while the
config sink writes zero lines for every record (its callable formatter's
JSON return is template-expanded, the KeyError is swallowed by catch=True,
and the record is dropped). -/
theorem c7_single_sink (service environment : String) (v : Option String)
    (st : LoguruCore) (t : String) :
    (∀ w : Option String,
      (Setup.configure_logger service environment w st t).map
          (fun p => p.1.handlers.length) = .ok 1
        ∨ (Setup.configure_logger service environment w st t).isOk = false)
  ∧ ((Config.configure_logger service environment v st t).1.handlers.length = 1)
  ∧ (∀ (bound : List (String × PyVal)) (lvl : Level) (m t2 : String),
      serializableDict bound = true →
      (Setup.logValues (Setup.installedState service environment 20) bound lvl m t2).map
          List.length = .ok (if 20 ≤ lvl.no then 1 else 0))
  ∧ (∀ (stc : LoguruCore) (bound : List (String × PyVal)) (lvl : Level) (m t2 : String),
      Config.log service environment stc bound lvl m t2 = []) := by
  refine ⟨?_, rfl, ?_, fun stc bound lvl m t2 =>
    Config.log_nothing service environment stc bound lvl m t2⟩
  · intro w
    cases hl : levelNo? (asciiUpper (w.getD "INFO")) with
    | none => exact Or.inr (Setup.configure_err service environment w st t hl)
    | some n =>
      left
      rw [Setup.configure_eq service environment w st t n hl]
      rfl
  · intro bound lvl m t2 hb
    rw [Setup.logValues_ok service environment 20 bound lvl m t2 hb]
    by_cases hn : (20 : Nat) ≤ lvl.no <;> simp [hn, Except.map]

/-- C7 witness: the theorem applies at a concrete configure and a single
INFO record, which is written exactly once. -/
theorem c7_witness :
    serializableDict ([] : List (String × PyVal)) = true
  ∧ (Setup.logValues (Setup.installedState "svc" "production" 20) [] .info "hello" "T1").map
      List.length = .ok (if 20 ≤ Level.info.no then 1 else 0) :=
  ⟨by rfl, (c7_single_sink "svc" "production" none emptyCore "T0").2.2.1
      [] .info "hello" "T1" (by rfl)⟩

/-- C8 counterexample: through config.configure_logger's sink, a warning
record — above the sink's INFO minimum, so the claim requires it to be
emitted — produces no output line at all: the formatter bug drops it, so
"emitted iff L is at least M" fails for the config variant. -/
theorem c8_counterexample :
    Config.handler.levelNo ≤ Level.warning.no
  ∧ Config.log "svc" "production" ⟨[Config.handler], []⟩ [] .warning "hello" "T1" = [] :=
  ⟨by decide, Config.log_nothing "svc" "production" ⟨[Config.handler], []⟩ [] .warning
    "hello" "T1"⟩

/-- C8 amended: through the setup variant's sink, with the minimum level M
configured through LOG_LEVEL, a record at level L is emitted iff the
severity number of L is at least that of M, and the severity numbers order
the named levels as TRACE < DEBUG < INFO < WARNING < ERROR < CRITICAL;
through the config variant's sink no record is emitted at any level, its
formatter bug dropping them all, so the equivalence holds only for the
setup variant. -/
theorem c8_level_filtering (L M : Level) (service environment : String)
    (st : LoguruCore) (t m time : String) :
    ((Setup.configure_logger service environment (some M.name) st t).map Prod.fst
      = .ok (Setup.installedState service environment M.no))
  ∧ ((Setup.logValues (Setup.installedState service environment M.no) [] L m time).map
      List.length = .ok (if M.no ≤ L.no then 1 else 0))
  ∧ (((Setup.logValues (Setup.installedState service environment M.no) [] L m time).map
      List.length = .ok 1) ↔ M.no ≤ L.no)
  ∧ (∀ stc : LoguruCore, Config.log service environment stc [] L m time = [])
  ∧ (Level.trace.no < Level.debug.no ∧ Level.debug.no < Level.info.no
      ∧ Level.info.no < Level.warning.no ∧ Level.warning.no < Level.error.no
      ∧ Level.error.no < Level.critical.no) := by
  have hname : levelNo? (asciiUpper ((some M.name).getD "INFO")) = some M.no := by
    cases M <;> rfl
  have hlog := Setup.logValues_ok service environment M.no [] L m time rfl
  refine ⟨?_, ?_, ?_, fun stc => Config.log_nothing service environment stc [] L m time,
    by decide⟩
  · rw [Setup.configure_eq service environment (some M.name) st t M.no hname]; rfl
  · rw [hlog]; by_cases hn : M.no ≤ L.no <;> simp [hn, Except.map]
  · rw [hlog]; by_cases hn : M.no ≤ L.no <;> simp [hn, Except.map]

/-- C9 counterexample: config.configure_logger installs its sink with
enqueue left at the loguru default false — synchronous delivery on the
calling thread — so not every configure call installs an asynchronous
sink. -/
theorem c9_counterexample :
    (Config.configure_logger "svc" "production" none emptyCore "T0").1.handlers.map
      Handler.enqueue = [false] := rfl

/-- C9 amended: setup.configure_logger installs its sink with enqueue=True,
so records are queued and the single background worker writes them in
enqueue (FIFO) order, as the drain model preserves; config.configure_logger
leaves loguru's default enqueue=False, so its sink writes synchronously on
the calling thread. -/
theorem c9_async_delivery (service environment : String) (v : Option String)
    (st : LoguruCore) (t : String) :
    (∀ w : Option String,
      (Setup.configure_logger service environment w st t).map
          (fun p => p.1.handlers.map Handler.enqueue) = .ok [true]
        ∨ (Setup.configure_logger service environment w st t).isOk = false)
  ∧ (∀ q : List String, drainQueue q = q)
  ∧ ((Config.configure_logger service environment v st t).1.handlers.map Handler.enqueue
      = [false]) := by
  refine ⟨?_, ?_, rfl⟩
  · intro w
    cases hl : levelNo? (asciiUpper (w.getD "INFO")) with
    | none => exact Or.inr (Setup.configure_err service environment w st t hl)
    | some n =>
      left
      rw [Setup.configure_eq service environment w st t n hl]
      rfl
  · intro q
    induction q with
    | nil => rfl
    | cons a q ih => simp [drainQueue, ih]

/-- C10 counterexample: config.configure_logger("", "production") completes
and installs its one sink without validation, but its confirmation record is
dropped by the formatter bug — the call emits zero lines, contrary to the
claim that configure emits the confirmation record. -/
theorem c10_counterexample :
    (Config.configure_logger "" "production" none emptyCore "T0").1.handlers.length = 1
  ∧ (Config.configure_logger "" "production" none emptyCore "T0").2 = [] :=
  ⟨rfl, Config.log_nothing "" "production" { handlers := [Config.handler], extra := [] }
    [] .info ("Structured JSON logger configured for \x27" ++ "" ++ "\x27.") "T0"⟩

/-- C10 amended: neither configure variant validates its arguments. With the
empty string as service name and any environment string the setup variant
completes, installs its sink, emits exactly one confirmation record, and a
subsequent record carries service "" and the given environment verbatim in
its payload; the config variant also completes and installs its sink, and
its serializer builds payloads carrying the strings verbatim, but its
confirmation record — like every record of its sink — is dropped by the
formatter bug, so nothing is emitted. -/
theorem c10_no_validation (environment : String) (st : LoguruCore) (t : String)
    (lvl : Level) (m time : String) :
    ((Setup.configure_logger "" environment none st t).map
        (fun p => (p.1, p.2.length))) = .ok (Setup.installedState "" environment 20, 1)
  ∧ lookupKey (Setup.innerDict
      (mkRecord (Setup.installedState "" environment 20) [] lvl m time)) "service"
      = some (PyVal.json (.str ""))
  ∧ lookupKey (Setup.innerDict
      (mkRecord (Setup.installedState "" environment 20) [] lvl m time)) "environment"
      = some (PyVal.json (.str environment))
  ∧ ((Config.configure_logger "" environment none emptyCore t).1
      = { handlers := [Config.handler], extra := [] })
  ∧ ((Config.configure_logger "" environment none emptyCore t).2 = [])
  ∧ lookupKey (Config.subsetDict "" environment
      (mkRecord ⟨[Config.handler], []⟩ [] lvl m time)) "service"
      = some (PyVal.json (.str ""))
  ∧ lookupKey (Config.subsetDict "" environment
      (mkRecord ⟨[Config.handler], []⟩ [] lvl m time)) "environment"
      = some (PyVal.json (.str environment)) := by
  refine ⟨?_, rfl, rfl, rfl,
    Config.log_nothing "" environment { handlers := [Config.handler], extra := [] }
      [] .info ("Structured JSON logger configured for \x27" ++ "" ++ "\x27.") t, rfl, rfl⟩
  · rw [Setup.configure_eq "" environment none st t 20 rfl]
    rfl

end SharedLogging
